import Mathlib

/-!
Verification of the analytics/usage-ledger subsystem (`analytics.py`) of the
AI-Side-Panel Anki add-on.

The Python module is a read-modify-write CRUD layer over a JSON-like config
dict.  We embed the persisted record as a structure of `Option` fields
(`none` models both an absent key and a key stored with value `None`, which
the source never distinguishes: every access goes through `.get` with a
default or a truthiness test), dates and timestamps as explicit
year/month/day(/h/m/s) structures with the civil-calendar arithmetic that
`datetime`/`timedelta` perform, and Python's lexicographic string
comparison as an executable comparison on the underlying character lists.
Network effects are abstracted as an explicit outcome parameter; wall-clock
time is an explicit `now` argument.
-/

/-- Three-way comparison on naturals, used to mirror Python's ordering of
numbers and `datetime.date` objects. -/
def cmpN (a b : Nat) : Ordering :=
  if a < b then .lt else if b < a then .gt else .eq

/-- Lexicographic `<=` on character lists by code point: this is exactly how
Python compares `str` values (`date >= cutoff_str` in
`cleanup_old_daily_data`). -/
def lexLe : List Char → List Char → Bool
  | [], _ => true
  | _ :: _, [] => false
  | a :: as, b :: bs =>
    if a.toNat < b.toNat then true
    else if b.toNat < a.toNat then false
    else lexLe as bs

/-- Three-way lexicographic comparison on character lists by code point. -/
def cmpL : List Char → List Char → Ordering
  | [], [] => .eq
  | [], _ :: _ => .lt
  | _ :: _, [] => .gt
  | a :: as, b :: bs =>
    if a.toNat < b.toNat then .lt
    else if b.toNat < a.toNat then .gt
    else cmpL as bs

/-- Python string `<=` (code-point lexicographic order). -/
def strLe (s t : String) : Bool := lexLe s.data t.data

/-- The ASCII digit character for `n % 10`. -/
def digitChar (n : Nat) : Char := Char.ofNat (48 + n % 10)

/-- Two zero-padded decimal digits, as printed by `strftime` field `%m` or
`%d` (and by `isoformat` for time components). -/
def pad2c (n : Nat) : List Char := [digitChar (n / 10), digitChar (n % 10)]

/-- Four zero-padded decimal digits, as printed by `strftime` field `%Y`. -/
def pad4c (n : Nat) : List Char := pad2c (n / 100) ++ pad2c (n % 100)

/-- A calendar date, as `datetime.date`. -/
structure Date where
  year : Nat
  month : Nat
  day : Nat
deriving DecidableEq, Repr

/-- Python `date` ordering (`today > last_sent_date` compares this way):
lexicographic on (year, month, day). -/
def Date.isBefore (x y : Date) : Bool :=
  match cmpN x.year y.year with
  | .lt => true
  | .gt => false
  | .eq =>
    match cmpN x.month y.month with
    | .lt => true
    | .gt => false
    | .eq => x.day < y.day

/-- The `strftime("%Y-%m-%d")` character list of a date. -/
def Date.fmtList (d : Date) : List Char :=
  pad4c d.year ++ '-' :: (pad2c d.month ++ '-' :: pad2c d.day)

/-- The `strftime("%Y-%m-%d")` string of a date. -/
def Date.fmt (d : Date) : String := String.mk d.fmtList

/-- Whether a year is a Gregorian leap year. -/
def isLeap (y : Nat) : Bool := (y % 4 = 0 && y % 100 ≠ 0) || y % 400 = 0

/-- Number of days in a month of a given year. -/
def daysInMonth (y m : Nat) : Nat :=
  if m = 2 then (if isLeap y then 29 else 28)
  else if m = 4 ∨ m = 6 ∨ m = 9 ∨ m = 11 then 30
  else 31

/-- A calendar-valid date whose formatted year has four digits (every date a
real `datetime` can hold). -/
def ValidDate (d : Date) : Bool :=
  1 ≤ d.month && d.month ≤ 12 && 1 ≤ d.day && d.day ≤ daysInMonth d.year d.month
    && 1 ≤ d.year && d.year ≤ 9999

/-- Days since the civil epoch 1970-01-01 of a (proleptic Gregorian) date;
the arithmetic `datetime` subtraction is built on. -/
def daysFromCivil (d : Date) : Int :=
  let yi : Int := (d.year : Int) - (if d.month ≤ 2 then 1 else 0)
  let era : Int := Int.fdiv yi 400
  let yoe : Int := yi - era * 400
  let mp : Int := if 3 ≤ d.month then (d.month : Int) - 3 else (d.month : Int) + 9
  let doy : Int := Int.fdiv (153 * mp + 2) 5 + (d.day : Int) - 1
  let doe : Int := yoe * 365 + Int.fdiv yoe 4 - Int.fdiv yoe 100 + doy
  era * 146097 + doe - 719468

/-- The (proleptic Gregorian) date lying a given number of days after
1970-01-01; inverse of `daysFromCivil`. -/
def civilFromDays (z0 : Int) : Date :=
  let z : Int := z0 + 719468
  let era : Int := Int.fdiv z 146097
  let doe : Int := z - era * 146097
  let yoe : Int :=
    Int.fdiv (doe - Int.fdiv doe 1460 + Int.fdiv doe 36524 - Int.fdiv doe 146096) 365
  let y : Int := yoe + era * 400
  let doy : Int := doe - (365 * yoe + Int.fdiv yoe 4 - Int.fdiv yoe 100)
  let mp : Int := Int.fdiv (5 * doy + 2) 153
  let dd : Int := doy - Int.fdiv (153 * mp + 2) 5 + 1
  let m : Int := if mp < 10 then mp + 3 else mp - 9
  let yy : Int := if m ≤ 2 then y + 1 else y
  ⟨yy.toNat, m.toNat, dd.toNat⟩

/-- `d - timedelta(days = n)`: the date `n` days earlier. -/
def dateSubDays (d : Date) (n : Nat) : Date :=
  civilFromDays (daysFromCivil d - (n : Int))

/-- A wall-clock instant at second granularity, as `datetime.datetime`
(microseconds are dropped: nothing in the module observes them). -/
structure DateTime where
  year : Nat
  month : Nat
  day : Nat
  hour : Nat
  minute : Nat
  second : Nat
deriving DecidableEq, Repr

/-- The `date()` component of a datetime. -/
def DateTime.date (t : DateTime) : Date := ⟨t.year, t.month, t.day⟩

/-- Seconds since the epoch; `datetime` subtraction is the difference of
these. -/
def DateTime.toEpochSec (t : DateTime) : Int :=
  daysFromCivil t.date * 86400 + (t.hour : Int) * 3600 + (t.minute : Int) * 60
    + (t.second : Int)

/-- The `isoformat()` string of a datetime (second granularity, no
timezone, mirroring the naive `datetime.now()` the source stores). -/
def DateTime.isoformat (t : DateTime) : String :=
  String.mk (pad4c t.year ++ '-' :: (pad2c t.month ++ '-' :: (pad2c t.day
    ++ 'T' :: (pad2c t.hour ++ ':' :: (pad2c t.minute ++ ':' :: pad2c t.second)))))

/-- Reads one decimal digit. -/
def digitVal (c : Char) : Option Nat :=
  if c.isDigit then some (c.toNat - 48) else none

/-- Reads two decimal digits. -/
def read2 : List Char → Option (Nat × List Char)
  | c1 :: c2 :: rest =>
    match digitVal c1, digitVal c2 with
    | some a, some b => some (10 * a + b, rest)
    | _, _ => none
  | _ => none

/-- Reads four decimal digits. -/
def read4 (cs : List Char) : Option (Nat × List Char) :=
  match read2 cs with
  | none => none
  | some (hi, rest) =>
    match read2 rest with
    | none => none
    | some (lo, rest2) => some (100 * hi + lo, rest2)

/-- Parses the `HH[:MM[:SS[.ffffff]]]` time part accepted by
`datetime.fromisoformat`; fractional seconds are validated and dropped
(second granularity). -/
def readTimePart (cs : List Char) : Option (Nat × Nat × Nat) :=
  match read2 cs with
  | none => none
  | some (h, r1) =>
    if h ≤ 23 then
      match r1 with
      | [] => some (h, 0, 0)
      | ':' :: r2 =>
        match read2 r2 with
        | none => none
        | some (mi, r3) =>
          if mi ≤ 59 then
            match r3 with
            | [] => some (h, mi, 0)
            | ':' :: r4 =>
              match read2 r4 with
              | none => none
              | some (se, r5) =>
                if se ≤ 59 then
                  match r5 with
                  | [] => some (h, mi, se)
                  | '.' :: r6 =>
                    if r6 ≠ [] ∧ r6.all Char.isDigit then some (h, mi, se) else none
                  | _ => none
                else none
            | _ => none
          else none
      | _ => none
    else none

/-- `datetime.fromisoformat`: parses `YYYY-MM-DD[*HH[:MM[:SS[.ffffff]]]]`
with calendar validation, returning `none` where Python raises
`ValueError`. -/
def fromisoformat (s : String) : Option DateTime :=
  match read4 s.data with
  | none => none
  | some (y, rest) =>
    match rest with
    | '-' :: r1 =>
      match read2 r1 with
      | none => none
      | some (mo, r2) =>
        match r2 with
        | '-' :: r3 =>
          match read2 r3 with
          | none => none
          | some (d, r4) =>
            if 1 ≤ mo ∧ mo ≤ 12 ∧ 1 ≤ d ∧ d ≤ daysInMonth y mo then
              match r4 with
              | [] => some ⟨y, mo, d, 0, 0, 0⟩
              | sep :: r5 =>
                if sep = 'T' ∨ sep = ' ' then
                  match readTimePart r5 with
                  | none => none
                  | some (h, mi, se) => some ⟨y, mo, d, h, mi, se⟩
                else none
            else none
        | _ => none
    | _ => none

/-- Python truthiness of an optional string slot: absent keys, `None`, and
the empty string are all falsy (the source only ever tests these slots with
`if not analytics.get(...)`). -/
def truthyStr : Option String → Bool
  | none => false
  | some s => s ≠ ""

/-- First-match lookup in an insertion-ordered association list, the shape
of a Python `dict` with string keys (`daily_usage`). -/
def dictGet? : List (String × Nat) → String → Option Nat
  | [], _ => none
  | (k', v) :: rest, k => if k' = k then some v else dictGet? rest k

/-- `d.get(k, dflt)` on the association list. -/
def dictGetD (l : List (String × Nat)) (k : String) (dflt : Nat) : Nat :=
  (dictGet? l k).getD dflt

/-- `d[k] = v` on the association list: replaces the value in place if the
key exists, else appends (Python dict insertion order). -/
def dictSet : List (String × Nat) → String → Nat → List (String × Nat)
  | [], k, v => [(k, v)]
  | (k', v') :: rest, k, v =>
    if k' = k then (k, v) :: rest else (k', v') :: dictSet rest k v

/-- The persisted analytics record (`config["analytics"]`).  Each field is
optional: `none` stands for an absent key or a key holding `None`; the
source code reads every field through `.get` with a default or a
truthiness check, so the two are indistinguishable to it. -/
structure AnalyticsRecord where
  first_install_date : Option String := none
  platform : Option String := none
  locale : Option String := none
  timezone : Option String := none
  total_uses : Option Nat := none
  daily_usage : Option (List (String × Nat)) := none
  last_used_date : Option String := none
  signup_method : Option String := none
  signup_date : Option String := none
  auth_button_clicked : Option String := none
  auth_button_click_date : Option String := none
  has_logged_in : Option Bool := none
  first_login_date : Option String := none
  onboarding_completed : Option Bool := none
  tutorial_status : Option String := none
  tutorial_current_step : Option String := none
  quick_action_usage_count : Option Nat := none
  shortcut_usage_count : Option Nat := none
  last_analytics_sent : Option String := none
deriving DecidableEq, Repr

/-- The two locale fields of `get_locale_info`'s result that
`init_analytics` reads (the dict also carries `encoding` and `platform`,
which no caller uses). -/
structure LocaleInfo where
  locale : Option String := none
  timezone : Option String := none
deriving DecidableEq, Repr

/-- `get_locale_info()`: returns the detected info, or the empty dict (all
lookups `None`) when detection raised — the bare `except` swallows every
error. -/
def get_locale_info (detected : LocaleInfo) (raised : Bool) : LocaleInfo :=
  if raised then {} else detected

/-- `init_analytics()`: a no-op when `first_install_date` is already truthy;
otherwise stamps the install time, captures best-effort platform and locale
info, and resets every tracked field to its zero/empty default.
`now` abstracts `datetime.now()`, `platform` abstracts `sys.platform`, and
`detected`/`raised` abstract the outcome of locale detection. -/
def init_analytics (now : DateTime) (platform : String) (detected : LocaleInfo)
    (raised : Bool) (a : AnalyticsRecord) : AnalyticsRecord :=
  if truthyStr a.first_install_date then a
  else
    let locale_info := get_locale_info detected raised
    { a with
      first_install_date := some now.isoformat
      platform := some platform
      locale := locale_info.locale
      timezone := locale_info.timezone
      total_uses := some 0
      daily_usage := some []
      last_used_date := none
      signup_method := none
      has_logged_in := some false
      auth_button_clicked := none
      onboarding_completed := some false
      tutorial_status := none
      tutorial_current_step := none
      quick_action_usage_count := some 0
      shortcut_usage_count := some 0 }

/-- `cleanup_old_daily_data(analytics)`: drops every `daily_usage` entry
whose key is lexically below the `%Y-%m-%d` string of `now - 90 days`,
keeping insertion order; returns the record unchanged when the
`daily_usage` key is absent. -/
def cleanup_old_daily_data (now : DateTime) (a : AnalyticsRecord) : AnalyticsRecord :=
  match a.daily_usage with
  | none => a
  | some du =>
    let cutoff_str := (dateSubDays now.date 90).fmt
    { a with daily_usage := some (du.filter (fun kv => strLe cutoff_str kv.1)) }

/-- `track_usage()`: bumps `total_uses` and today's `daily_usage` count,
stamps `last_used_date`, then prunes entries older than 90 days. -/
def track_usage (now : DateTime) (a : AnalyticsRecord) : AnalyticsRecord :=
  let today := now.date.fmt
  let a1 := { a with total_uses := some (a.total_uses.getD 0 + 1) }
  let du := a1.daily_usage.getD []
  let a2 := { a1 with daily_usage := some (dictSet du today (dictGetD du today 0 + 1)) }
  let a3 := { a2 with last_used_date := some today }
  cleanup_old_daily_data now a3

/-- `track_signup_click(method)`: first write wins — the method and a
timestamp are stored only while `signup_method` is falsy. -/
def track_signup_click (now : DateTime) (method : String) (a : AnalyticsRecord) :
    AnalyticsRecord :=
  if truthyStr a.signup_method then a
  else { a with signup_method := some method, signup_date := some now.isoformat }

/-- `track_auth_button_click(button_type)`: first write wins on the first
auth button clicked. -/
def track_auth_button_click (now : DateTime) (button_type : String)
    (a : AnalyticsRecord) : AnalyticsRecord :=
  if truthyStr a.auth_button_clicked then a
  else { a with auth_button_clicked := some button_type,
                auth_button_click_date := some now.isoformat }

/-- `track_login_detected()`: one-way transition of `has_logged_in`,
stamping `first_login_date` on the transition. -/
def track_login_detected (now : DateTime) (a : AnalyticsRecord) : AnalyticsRecord :=
  if a.has_logged_in.getD false then a
  else { a with has_logged_in := some true, first_login_date := some now.isoformat }

/-- `track_onboarding_completed()`: one-way transition of
`onboarding_completed`. -/
def track_onboarding_completed (a : AnalyticsRecord) : AnalyticsRecord :=
  if a.onboarding_completed.getD false then a
  else { a with onboarding_completed := some true }

/-- `track_tutorial_status(status)`: writes the new status unless the
current one is already the terminal `"completed"`. -/
def track_tutorial_status (status : String) (a : AnalyticsRecord) : AnalyticsRecord :=
  if a.tutorial_status = some "completed" then a
  else { a with tutorial_status := some status }

/-- `track_tutorial_step(current, total)`: unconditionally overwrites the
`"current/total"` progress string. -/
def track_tutorial_step (current total : Int) (a : AnalyticsRecord) : AnalyticsRecord :=
  { a with tutorial_current_step := some (toString current ++ "/" ++ toString total) }

/-- `track_quick_action_used()`: unconditional increment. -/
def track_quick_action_used (a : AnalyticsRecord) : AnalyticsRecord :=
  { a with quick_action_usage_count := some (a.quick_action_usage_count.getD 0 + 1) }

/-- `track_shortcut_used()`: unconditional increment. -/
def track_shortcut_used (a : AnalyticsRecord) : AnalyticsRecord :=
  { a with shortcut_usage_count := some (a.shortcut_usage_count.getD 0 + 1) }

/-- Round-half-even (Python's `round`) of the rational `n / d` (for
`d > 0`), over exact integers. -/
def roundHalfEvenFrac (n d : Int) : Int :=
  let f := Int.fdiv n d
  let r := Int.fmod n d
  if 2 * r < d then f
  else if d < 2 * r then f + 1
  else if f % 2 = 0 then f else f + 1

/-- The dict returned by `get_retention_metrics` when an install date is
present. -/
structure RetentionMetrics where
  days_since_install : Int
  active_days : Nat
  total_uses : Nat
  retention_rate : ℚ
  last_used : Option String
  has_logged_in : Bool
  signup_method : Option String
deriving DecidableEq, Repr

/-- Outcome of `get_retention_metrics()`: the empty dict, a metrics dict, or
the `ValueError` that an unparseable stored `first_install_date` would let
escape (the function has no handler). -/
inductive RetentionResult where
  | empty
  | parseFailure
  | metrics (m : RetentionMetrics)
deriving DecidableEq, Repr

/-- `get_retention_metrics()`: a pure read (the source never calls
`save_analytics_data` here).  Python computes `retention_rate` in floating
point and rounds with `round(x, 2)`; we model the arithmetic with exact
rationals and decimal round-half-even, expressed over integers as
`roundHalfEvenFrac (10000 * active) (max dsi 1) / 100`. -/
def get_retention_metrics (now : DateTime) (a : AnalyticsRecord) : RetentionResult :=
  match a.first_install_date with
  | none => .empty
  | some s =>
    if s = "" then .empty
    else
      match fromisoformat s with
      | none => .parseFailure
      | some fi =>
        let dsi : Int := Int.fdiv (now.toEpochSec - fi.toEpochSec) 86400
        let active : Nat := (a.daily_usage.getD []).length
        let rate100 : Int :=
          if 0 < dsi then roundHalfEvenFrac (100 * (100 * (active : Int))) (max dsi 1)
          else 0
        .metrics
          { days_since_install := dsi
            active_days := active
            total_uses := a.total_uses.getD 0
            retention_rate := (rate100 : ℚ) / 100
            last_used := a.last_used_date
            has_logged_in := a.has_logged_in.getD false
            signup_method := a.signup_method }

/-- `should_send_analytics()`: true when no (truthy) send timestamp is
stored, when the stored one fails to parse (the bare `except` returns
`True`), or when its date is strictly before today. -/
def should_send_analytics (now : DateTime) (a : AnalyticsRecord) : Bool :=
  match a.last_analytics_sent with
  | none => true
  | some s =>
    if s = "" then true
    else
      match fromisoformat s with
      | none => true
      | some dt => Date.isBefore dt.date now.date

/-- Possible outcomes of the single POST attempt inside
`send_analytics_background`: an HTTP response with some status, or one of
the failure modes its `except` clause swallows. -/
inductive NetOutcome where
  | http (status : Nat)
  | netError
  | timeoutError
  | serializeError
deriving DecidableEq, Repr

/-- A JSON value as it appears in the flush payload. -/
inductive JValue where
  | null
  | str (s : String)
  | num (n : Nat)
  | bool (b : Bool)
deriving DecidableEq, Repr

/-- JSON encoding of an optional string field. -/
def jOptStr : Option String → JValue
  | none => .null
  | some s => .str s

/-- The payload dict literal built inside `send_analytics_background`,
key-for-key. -/
def build_payload (a : AnalyticsRecord) : List (String × JValue) :=
  [("first_install_date", jOptStr a.first_install_date),
   ("platform", jOptStr a.platform),
   ("locale", jOptStr a.locale),
   ("timezone", jOptStr a.timezone),
   ("total_uses", .num (a.total_uses.getD 0)),
   ("has_logged_in", .bool (a.has_logged_in.getD false)),
   ("signup_method", jOptStr a.signup_method),
   ("auth_button_clicked", jOptStr a.auth_button_clicked),
   ("last_used_date", jOptStr a.last_used_date),
   ("onboarding_completed", .bool (a.onboarding_completed.getD false)),
   ("tutorial_status", jOptStr a.tutorial_status),
   ("tutorial_current_step", jOptStr a.tutorial_current_step),
   ("quick_action_usage_count", .num (a.quick_action_usage_count.getD 0)),
   ("shortcut_usage_count", .num (a.shortcut_usage_count.getD 0))]

/-- The `_send` body of `send_analytics_background`, as its effect on the
persisted record: with no configured endpoint it returns before sending;
with one it POSTs `build_payload` and writes `last_analytics_sent` exactly
when the response status is 200.  Every other outcome falls into the bare
`except ...: pass`, leaving the record untouched, surfacing nothing and
scheduling no retry. -/
def send_analytics_background (now : DateTime) (endpoint : Option String)
    (outcome : NetOutcome) (a : AnalyticsRecord) : AnalyticsRecord :=
  if truthyStr endpoint = false then a
  else
    match outcome with
    | .http status =>
      if status = 200 then { a with last_analytics_sent := some now.isoformat }
      else a
    | _ => a

/-- `try_send_daily_analytics()`: the number of upload attempts it
triggers — one background send when `should_send_analytics()` holds,
none otherwise. -/
def try_send_daily_analytics (now : DateTime) (a : AnalyticsRecord) : Nat :=
  if should_send_analytics now a then 1 else 0

/-- One ledger operation, with every environment input (clock, platform,
locale detection, endpoint configuration, network outcome) made explicit. -/
inductive Op where
  | init (now : DateTime) (platform : String) (detected : LocaleInfo) (raised : Bool)
  | record_usage (now : DateTime)
  | record_signup_click (now : DateTime) (method : String)
  | record_auth_button_click (now : DateTime) (kind : String)
  | record_login_detected (now : DateTime)
  | record_onboarding_completed
  | set_tutorial_status (status : String)
  | set_tutorial_step (current total : Int)
  | increment_quick_action_usage
  | increment_shortcut_usage
  | flush (now : DateTime) (endpoint : Option String) (outcome : NetOutcome)
deriving Repr

/-- Applies one operation to the persisted record. -/
def applyOp (a : AnalyticsRecord) : Op → AnalyticsRecord
  | .init now platform detected raised => init_analytics now platform detected raised a
  | .record_usage now => track_usage now a
  | .record_signup_click now method => track_signup_click now method a
  | .record_auth_button_click now kind => track_auth_button_click now kind a
  | .record_login_detected now => track_login_detected now a
  | .record_onboarding_completed => track_onboarding_completed a
  | .set_tutorial_status status => track_tutorial_status status a
  | .set_tutorial_step current total => track_tutorial_step current total a
  | .increment_quick_action_usage => track_quick_action_used a
  | .increment_shortcut_usage => track_shortcut_used a
  | .flush now endpoint outcome => send_analytics_background now endpoint outcome a

/-- Applies a sequence of operations left to right. -/
def runOps (a : AnalyticsRecord) (ops : List Op) : AnalyticsRecord :=
  ops.foldl applyOp a

/-- `lexLe` is the non-`gt` half of the three-way comparison. -/
theorem lexLe_eq_cmpL (l1 l2 : List Char) :
    lexLe l1 l2 = (match cmpL l1 l2 with | .gt => false | _ => true) := by
  induction l1 generalizing l2 with
  | nil => cases l2 <;> rfl
  | cons a as ih =>
    cases l2 with
    | nil => rfl
    | cons b bs =>
      simp only [lexLe, cmpL]
      split
      · rfl
      · split
        · rfl
        · exact ih bs

/-- Comparing equal-length prefixes first: three-way comparison splits over
append. -/
theorem cmpL_append (xs ys t1 t2 : List Char) (h : xs.length = ys.length) :
    cmpL (xs ++ t1) (ys ++ t2) = (cmpL xs ys).then (cmpL t1 t2) := by
  induction xs generalizing ys with
  | nil =>
    cases ys with
    | nil => rfl
    | cons b bs => simp at h
  | cons a as ih =>
    cases ys with
    | nil => simp at h
    | cons b bs =>
      simp only [List.length_cons, Nat.add_right_cancel_iff] at h
      simp only [List.cons_append, cmpL]
      split
      · rfl
      · split
        · rfl
        · exact ih bs h

/-- Single zero-padded digits compare like the digits themselves. -/
theorem cmpL_digit (a : Nat) (ha : a < 10) (b : Nat) (hb : b < 10) :
    cmpL [digitChar a] [digitChar b] = cmpN a b := by
  revert a b
  decide

/-- Splitting a two-way `cmpN` along division by 10. -/
theorem cmpN_split10 (a b : Nat) :
    (cmpN (a / 10) (b / 10)).then (cmpN (a % 10) (b % 10)) = cmpN a b := by
  unfold cmpN
  split_ifs <;> simp_all [Ordering.then] <;> omega

/-- Splitting a two-way `cmpN` along division by 100. -/
theorem cmpN_split100 (a b : Nat) :
    (cmpN (a / 100) (b / 100)).then (cmpN (a % 100) (b % 100)) = cmpN a b := by
  unfold cmpN
  split_ifs <;> simp_all [Ordering.then] <;> omega

/-- Two-digit zero-padded numerals compare like the numbers. -/
theorem cmpL_pad2 (a b : Nat) (ha : a ≤ 99) (hb : b ≤ 99) :
    cmpL (pad2c a) (pad2c b) = cmpN a b := by
  have h1 : pad2c a = [digitChar (a / 10)] ++ [digitChar (a % 10)] := rfl
  have h2 : pad2c b = [digitChar (b / 10)] ++ [digitChar (b % 10)] := rfl
  rw [h1, h2,
    cmpL_append [digitChar (a / 10)] [digitChar (b / 10)] _ _ rfl,
    cmpL_digit (a / 10) (by omega) (b / 10) (by omega),
    cmpL_digit (a % 10) (by omega) (b % 10) (by omega),
    cmpN_split10 a b]

/-- Four-digit zero-padded numerals compare like the numbers. -/
theorem cmpL_pad4 (a b : Nat) (ha : a ≤ 9999) (hb : b ≤ 9999) :
    cmpL (pad4c a) (pad4c b) = cmpN a b := by
  unfold pad4c
  rw [cmpL_append (pad2c (a / 100)) (pad2c (b / 100)) _ _ rfl,
    cmpL_pad2 (a / 100) (b / 100) (by omega) (by omega),
    cmpL_pad2 (a % 100) (b % 100) (by omega) (by omega),
    cmpN_split100 a b]

/-- `pad2c` always yields two characters. -/
theorem pad2c_length (n : Nat) : (pad2c n).length = 2 := rfl

/-- `pad4c` always yields four characters. -/
theorem pad4c_length (n : Nat) : (pad4c n).length = 4 := rfl

/-- The full bridge: for dates whose components fit their zero-padded
fields, Python's lexical comparison of `%Y-%m-%d` strings is calendar
comparison — the fact the source's retention pruning relies on. -/
theorem cmpL_fmtList (d1 d2 : Date)
    (h1y : d1.year ≤ 9999) (h1m : d1.month ≤ 99) (h1d : d1.day ≤ 99)
    (h2y : d2.year ≤ 9999) (h2m : d2.month ≤ 99) (h2d : d2.day ≤ 99) :
    cmpL d1.fmtList d2.fmtList =
      (cmpN d1.year d2.year).then
        ((cmpN d1.month d2.month).then (cmpN d1.day d2.day)) := by
  unfold Date.fmtList
  rw [cmpL_append (pad4c d1.year) (pad4c d2.year) _ _ rfl, cmpL_pad4 _ _ h1y h2y]
  have hsep : cmpL ('-' :: (pad2c d1.month ++ '-' :: pad2c d1.day))
      ('-' :: (pad2c d2.month ++ '-' :: pad2c d2.day)) =
      cmpL (pad2c d1.month ++ '-' :: pad2c d1.day)
        (pad2c d2.month ++ '-' :: pad2c d2.day) := by
    simp [cmpL]
  rw [hsep, cmpL_append (pad2c d1.month) (pad2c d2.month) _ _ rfl,
    cmpL_pad2 _ _ h1m h2m]
  have hsep2 : cmpL ('-' :: pad2c d1.day) ('-' :: pad2c d2.day) =
      cmpL (pad2c d1.day) (pad2c d2.day) := by
    simp [cmpL]
  rw [hsep2, cmpL_pad2 _ _ h1d h2d]

/-- Bounds extracted from calendar validity. -/
theorem ValidDate.bounds {d : Date} (h : ValidDate d = true) :
    d.year ≤ 9999 ∧ d.month ≤ 99 ∧ d.day ≤ 99 := by
  unfold ValidDate at h
  simp only [Bool.and_eq_true, decide_eq_true_eq] at h
  have hdm : daysInMonth d.year d.month ≤ 31 := by
    unfold daysInMonth
    split_ifs <;> simp
  omega

/-- Strict calendar order gives strict lexical order of the formatted
strings; stated through `strLe` in the direction the pruning filter
needs. -/
theorem strLe_fmt_of_not_isBefore (d1 d2 : Date)
    (h1 : ValidDate d1 = true) (h2 : ValidDate d2 = true)
    (h : Date.isBefore d2 d1 = false) : strLe d1.fmt d2.fmt = true := by
  obtain ⟨h1y, h1m, h1d⟩ := ValidDate.bounds h1
  obtain ⟨h2y, h2m, h2d⟩ := ValidDate.bounds h2
  have hdata : strLe d1.fmt d2.fmt = lexLe d1.fmtList d2.fmtList := rfl
  rw [hdata, lexLe_eq_cmpL, cmpL_fmtList d1 d2 h1y h1m h1d h2y h2m h2d]
  unfold Date.isBefore at h
  unfold cmpN at h ⊢
  split_ifs at h ⊢ <;> simp_all [Ordering.then]

/-- Strict calendar order in the other direction: a strictly earlier date
formats strictly lexically below, so the pruning filter drops it. -/
theorem strLe_fmt_of_isBefore (d1 d2 : Date)
    (h1 : ValidDate d1 = true) (h2 : ValidDate d2 = true)
    (h : Date.isBefore d2 d1 = true) : strLe d1.fmt d2.fmt = false := by
  obtain ⟨h1y, h1m, h1d⟩ := ValidDate.bounds h1
  obtain ⟨h2y, h2m, h2d⟩ := ValidDate.bounds h2
  have hdata : strLe d1.fmt d2.fmt = lexLe d1.fmtList d2.fmtList := rfl
  rw [hdata, lexLe_eq_cmpL, cmpL_fmtList d1 d2 h1y h1m h1d h2y h2m h2d]
  unfold Date.isBefore at h
  unfold cmpN at h ⊢
  split_ifs at h ⊢ <;> simp_all [Ordering.then] <;> omega

/-- `Date.isBefore` is asymmetric. -/
theorem Date.isBefore_asymm {x y : Date} (h : Date.isBefore x y = true) :
    Date.isBefore y x = false := by
  unfold Date.isBefore cmpN at h ⊢
  split_ifs at h ⊢ <;> simp_all <;> omega

/-- Looking a key up after filtering on a key predicate that accepts it:
the first match is unchanged. -/
theorem dictGet?_filter_pos (l : List (String × Nat)) (p : String → Bool)
    (k : String) (h : p k = true) :
    dictGet? (l.filter fun kv => p kv.1) k = dictGet? l k := by
  induction l with
  | nil => rfl
  | cons kv rest ih =>
    by_cases hk : kv.1 = k
    · simp [List.filter_cons, hk, h, dictGet?]
    · by_cases hp : p kv.1 = true
      · simpa [List.filter_cons, hp, dictGet?, hk] using ih
      · simp only [Bool.not_eq_true] at hp
        simpa [List.filter_cons, hp, dictGet?, hk] using ih

/-- Looking a key up after filtering on a key predicate that rejects it:
the key is gone. -/
theorem dictGet?_filter_neg (l : List (String × Nat)) (p : String → Bool)
    (k : String) (h : p k = false) :
    dictGet? (l.filter fun kv => p kv.1) k = none := by
  induction l with
  | nil => rfl
  | cons kv rest ih =>
    by_cases hk : kv.1 = k
    · simp [List.filter_cons, hk, h, ih]
    · by_cases hp : p kv.1 = true
      · simpa [List.filter_cons, hp, dictGet?, hk] using ih
      · simp only [Bool.not_eq_true] at hp
        simpa [List.filter_cons, hp, dictGet?, hk] using ih

/-- `d[k] = v` then `d.get(k)` yields `v`. -/
theorem dictGet?_dictSet_self (l : List (String × Nat)) (k : String) (v : Nat) :
    dictGet? (dictSet l k v) k = some v := by
  induction l with
  | nil => simp [dictSet, dictGet?]
  | cons kv rest ih =>
    by_cases hk : kv.1 = k
    · simp [dictSet, hk, dictGet?]
    · simp [dictSet, hk, dictGet?, ih]

/-- `d[k] = v` leaves every other key's first match unchanged. -/
theorem dictGet?_dictSet_ne (l : List (String × Nat)) (k : String) (v : Nat)
    (k' : String) (h : k ≠ k') : dictGet? (dictSet l k v) k' = dictGet? l k' := by
  induction l with
  | nil => simp [dictSet, dictGet?, h]
  | cons kv rest ih =>
    by_cases hk : kv.1 = k
    · simp [dictSet, hk, dictGet?, h]
    · simp [dictSet, hk, dictGet?, ih]

/-- An `isoformat` string is never empty, hence always truthy. -/
theorem truthyStr_isoformat (t : DateTime) : truthyStr (some t.isoformat) = true := by
  simp only [truthyStr, DateTime.isoformat, pad4c, pad2c, List.cons_append,
    decide_eq_true_eq]
  intro h
  rw [String.ext_iff] at h
  simp at h

/-- C6: `set_tutorial_status(status)` is a no-op exactly when the stored
tutorial status is the terminal `"completed"`; in every other current state
it overwrites the status with the given value, lateral moves between the
non-terminal statuses included. -/
theorem claim_C6_tutorial_status_sticky (status : String) (a : AnalyticsRecord) :
    (a.tutorial_status = some "completed" → track_tutorial_status status a = a) ∧
    (a.tutorial_status ≠ some "completed" →
      track_tutorial_status status a = { a with tutorial_status := some status }) := by
  constructor
  · intro h
    simp [track_tutorial_status, h]
  · intro h
    simp [track_tutorial_status, h]

/-- C6 witness: after `set_tutorial_status("completed")`, a later
`set_tutorial_status("skip")` leaves the stored status `"completed"`. -/
theorem claim_C6_witness :
    (track_tutorial_status "completed" ({} : AnalyticsRecord)).tutorial_status
        = some "completed" ∧
    (track_tutorial_status "skip"
        (track_tutorial_status "completed" ({} : AnalyticsRecord))).tutorial_status
      = some "completed" := by
  have hc : (track_tutorial_status "completed" ({} : AnalyticsRecord)).tutorial_status
      = some "completed" := by decide
  have h := (claim_C6_tutorial_status_sticky "skip"
    (track_tutorial_status "completed" ({} : AnalyticsRecord))).1 hc
  exact ⟨hc, by rw [h]; exact hc⟩

/-- C7: `record_signup_click(method)` stores the method and a signup
timestamp only while `signup_method` is unset (falsy), and is a no-op
otherwise: first attribution wins. -/
theorem claim_C7_signup_first_write_wins (now : DateTime) (method : String)
    (a : AnalyticsRecord) :
    (truthyStr a.signup_method = false →
      track_signup_click now method a =
        { a with signup_method := some method, signup_date := some now.isoformat }) ∧
    (truthyStr a.signup_method = true → track_signup_click now method a = a) := by
  constructor
  · intro h
    simp [track_signup_click, h]
  · intro h
    simp [track_signup_click, h]

/-- C7 witness: `record_signup_click("organic")` then
`record_signup_click("sidebar_button")` leaves the stored method
`"organic"`. -/
theorem claim_C7_witness :
    truthyStr (({} : AnalyticsRecord).signup_method) = false ∧
    (track_signup_click ⟨2026, 1, 5, 12, 0, 0⟩ "sidebar_button"
        (track_signup_click ⟨2026, 1, 5, 12, 0, 0⟩ "organic" {})).signup_method
      = some "organic" := by
  have h := (claim_C7_signup_first_write_wins ⟨2026, 1, 5, 12, 0, 0⟩ "sidebar_button"
    (track_signup_click ⟨2026, 1, 5, 12, 0, 0⟩ "organic" {})).2 (by decide)
  exact ⟨by decide, by rw [h]; decide⟩

/-- C9: the flush payload is a fixed-shape function of the record — for
every record its key list is exactly the enumerated install metadata,
counters, attribution fields, and onboarding/tutorial state, in order, and
nothing else. -/
theorem claim_C9_payload_fixed_shape (a : AnalyticsRecord) :
    (build_payload a).map Prod.fst =
      ["first_install_date", "platform", "locale", "timezone", "total_uses",
       "has_logged_in", "signup_method", "auth_button_clicked", "last_used_date",
       "onboarding_completed", "tutorial_status", "tutorial_current_step",
       "quick_action_usage_count", "shortcut_usage_count"] := rfl

/-- C10: a stored `last_analytics_sent` that fails ISO parsing is treated
as if no send had happened — `should_send_analytics` returns `true`
instead of raising. -/
theorem claim_C10_unparseable_timestamp (now : DateTime) (a : AnalyticsRecord)
    (s : String) (hs : a.last_analytics_sent = some s)
    (hp : fromisoformat s = none) : should_send_analytics now a = true := by
  unfold should_send_analytics
  rw [hs]
  by_cases he : s = "" <;> simp [he, hp]

/-- C10 witness: the concrete garbage value `"not-a-date"` does not parse,
and the daily-send check still returns `true`. -/
theorem claim_C10_witness :
    fromisoformat "not-a-date" = none ∧
    should_send_analytics ⟨2026, 10, 12, 9, 0, 0⟩
      { last_analytics_sent := some "not-a-date" } = true :=
  ⟨by decide,
    claim_C10_unparseable_timestamp ⟨2026, 10, 12, 9, 0, 0⟩
      { last_analytics_sent := some "not-a-date" } "not-a-date" rfl (by decide)⟩

/-- C5: with an endpoint configured, the flush body persists
`last_analytics_sent := now` exactly on HTTP 200; on every other outcome
(non-200 status, network error, timeout, serialization error) the record is
returned untouched — the bare `except: pass` surfaces nothing and schedules
no retry. -/
theorem claim_C5_flush_success_only (now : DateTime) (endpoint : Option String)
    (outcome : NetOutcome) (a : AnalyticsRecord)
    (he : truthyStr endpoint = true) :
    (outcome = .http 200 →
      send_analytics_background now endpoint outcome a =
        { a with last_analytics_sent := some now.isoformat }) ∧
    (outcome ≠ .http 200 → send_analytics_background now endpoint outcome a = a) := by
  constructor
  · rintro rfl
    simp [send_analytics_background, he]
  · intro hne
    cases outcome with
    | http status =>
      have hs : status ≠ 200 := by
        intro h
        exact hne (by rw [h])
      simp [send_analytics_background, he, hs]
    | netError => simp [send_analytics_background, he]
    | timeoutError => simp [send_analytics_background, he]
    | serializeError => simp [send_analytics_background, he]

/-- C5 witness: a 200 response stamps the send time; a network error leaves
the concrete record exactly as it was. -/
theorem claim_C5_witness :
    truthyStr (some "https://collector.example/ingest") = true ∧
    send_analytics_background ⟨2026, 10, 12, 9, 0, 0⟩
        (some "https://collector.example/ingest") (.http 200)
        { total_uses := some 4 } =
      { total_uses := some 4,
        last_analytics_sent := some (⟨2026, 10, 12, 9, 0, 0⟩ : DateTime).isoformat } ∧
    send_analytics_background ⟨2026, 10, 12, 9, 0, 0⟩
        (some "https://collector.example/ingest") .netError
        { total_uses := some 4 } =
      { total_uses := some 4 } := by
  refine ⟨by decide, ?_, ?_⟩
  · exact (claim_C5_flush_success_only ⟨2026, 10, 12, 9, 0, 0⟩
      (some "https://collector.example/ingest") (.http 200)
      { total_uses := some 4 } (by decide)).1 rfl
  · exact (claim_C5_flush_success_only ⟨2026, 10, 12, 9, 0, 0⟩
      (some "https://collector.example/ingest") .netError
      { total_uses := some 4 } (by decide)).2 (by decide)

/-- C8: `initialize()` is idempotent — a second call (with any later clock,
platform, or locale-detection outcome) changes nothing — and on a record
with no install date the first call stamps `first_install_date`, captures
the best-effort platform/locale/timezone (recording nothing when detection
raised), and zeroes every counter. -/
theorem claim_C8_init_idempotent (a : AnalyticsRecord) (now1 now2 : DateTime)
    (p1 p2 : String) (d1 d2 : LocaleInfo) (r1 r2 : Bool) :
    (init_analytics now2 p2 d2 r2 (init_analytics now1 p1 d1 r1 a) =
      init_analytics now1 p1 d1 r1 a) ∧
    (truthyStr a.first_install_date = false →
      (init_analytics now1 p1 d1 r1 a).first_install_date = some now1.isoformat ∧
      (init_analytics now1 p1 d1 r1 a).platform = some p1 ∧
      (init_analytics now1 p1 d1 r1 a).locale = (get_locale_info d1 r1).locale ∧
      (init_analytics now1 p1 d1 r1 a).timezone = (get_locale_info d1 r1).timezone ∧
      (init_analytics now1 p1 d1 r1 a).total_uses = some 0 ∧
      (init_analytics now1 p1 d1 r1 a).daily_usage = some [] ∧
      (init_analytics now1 p1 d1 r1 a).quick_action_usage_count = some 0 ∧
      (init_analytics now1 p1 d1 r1 a).shortcut_usage_count = some 0 ∧
      (init_analytics now1 p1 d1 r1 a).has_logged_in = some false ∧
      (init_analytics now1 p1 d1 r1 a).onboarding_completed = some false ∧
      (r1 = true → (init_analytics now1 p1 d1 r1 a).locale = none ∧
        (init_analytics now1 p1 d1 r1 a).timezone = none)) := by
  constructor
  · by_cases h : truthyStr a.first_install_date = true
    · simp [init_analytics, h]
    · simp only [Bool.not_eq_true] at h
      set b := init_analytics now1 p1 d1 r1 a with hb
      have h1 : truthyStr b.first_install_date = true := by
        rw [hb]
        simp [init_analytics, h, truthyStr_isoformat]
      show init_analytics now2 p2 d2 r2 b = b
      simp [init_analytics, h1]
  · intro h
    refine ⟨?_, ?_, ?_, ?_, ?_, ?_, ?_, ?_, ?_, ?_, ?_⟩ <;>
      simp [init_analytics, h]
    rintro rfl
    simp [get_locale_info]

/-- C8 witness: on the empty record, initialization stamps the install
date, a raised locale detection records no locale info, and a second call
is a no-op. -/
theorem claim_C8_witness :
    (init_analytics ⟨2026, 2, 1, 8, 0, 0⟩ "win32" {} false
        (init_analytics ⟨2026, 1, 1, 7, 30, 0⟩ "darwin" {} true ({} : AnalyticsRecord)) =
      init_analytics ⟨2026, 1, 1, 7, 30, 0⟩ "darwin" {} true ({} : AnalyticsRecord)) ∧
    truthyStr (({} : AnalyticsRecord).first_install_date) = false ∧
    (init_analytics ⟨2026, 1, 1, 7, 30, 0⟩ "darwin" {} true
        ({} : AnalyticsRecord)).first_install_date
      = some (⟨2026, 1, 1, 7, 30, 0⟩ : DateTime).isoformat ∧
    (init_analytics ⟨2026, 1, 1, 7, 30, 0⟩ "darwin" {} true ({} : AnalyticsRecord)).locale
      = none ∧
    (init_analytics ⟨2026, 1, 1, 7, 30, 0⟩ "darwin" {} true ({} : AnalyticsRecord)).timezone
      = none := by
  have h := claim_C8_init_idempotent ({} : AnalyticsRecord)
    ⟨2026, 1, 1, 7, 30, 0⟩ ⟨2026, 2, 1, 8, 0, 0⟩ "darwin" "win32" {} {} true false
  have h2 := h.2 (by decide)
  exact ⟨h.1, by decide, h2.1, (h2.2.2.2.2.2.2.2.2.2.2 rfl).1,
    (h2.2.2.2.2.2.2.2.2.2.2 rfl).2⟩

/-- C4 counterexample: with `last_analytics_sent` dated strictly after
today (2026-10-13 seen on 2026-10-12), the upload is skipped even though
the stored date does not equal today — so "skips exactly when the date
equals today" is false as stated. -/
theorem claim_C4_counterexample :
    fromisoformat "2026-10-13T00:00:00" = some ⟨2026, 10, 13, 0, 0, 0⟩ ∧
    (⟨2026, 10, 13, 0, 0, 0⟩ : DateTime).date ≠ (⟨2026, 10, 12, 9, 0, 0⟩ : DateTime).date ∧
    try_send_daily_analytics ⟨2026, 10, 12, 9, 0, 0⟩
      { last_analytics_sent := some "2026-10-13T00:00:00" } = 0 :=
  ⟨by decide, by decide, by decide⟩

/-- Characterization of the daily-send gate: `should_send_analytics` is
`false` exactly when a truthy stored timestamp parses to a date that is not
strictly before today. -/
theorem should_send_eq_false_iff (now : DateTime) (a : AnalyticsRecord) :
    should_send_analytics now a = false ↔
      ∃ s dt, a.last_analytics_sent = some s ∧ s ≠ "" ∧
        fromisoformat s = some dt ∧ Date.isBefore dt.date now.date = false := by
  unfold should_send_analytics
  cases hls : a.last_analytics_sent with
  | none => simp
  | some s =>
    by_cases he : s = ""
    · subst he
      simp
    · simp only [if_neg he]
      cases hp : fromisoformat s with
      | none => simp [hp]
      | some dt =>
        constructor
        · intro h
          exact ⟨s, dt, rfl, he, hp, h⟩
        · rintro ⟨s2, dt2, hs2, hne2, hp2, hd2⟩
          obtain rfl : s = s2 := Option.some.inj hs2
          rw [hp] at hp2
          obtain rfl : dt = dt2 := Option.some.inj hp2
          exact hd2

/-- C4 (amended): `maybe_flush_daily()` triggers zero or one upload
attempt, and it skips (zero attempts) exactly when the stored
`last_analytics_sent` is truthy and parses to a date on or after today —
in particular when it is today's date; with yesterday's date, an absent
value, or an unparseable value, exactly one attempt is triggered. -/
theorem claim_C4_flush_gating (now : DateTime) (a : AnalyticsRecord) :
    (try_send_daily_analytics now a = 0 ∨ try_send_daily_analytics now a = 1) ∧
    (try_send_daily_analytics now a = 0 ↔
      ∃ s dt, a.last_analytics_sent = some s ∧ s ≠ "" ∧
        fromisoformat s = some dt ∧ Date.isBefore dt.date now.date = false) := by
  have hchar := should_send_eq_false_iff now a
  constructor
  · unfold try_send_daily_analytics
    split <;> simp
  · constructor
    · intro h0
      refine hchar.mp ?_
      by_contra hc
      simp only [Bool.not_eq_false] at hc
      unfold try_send_daily_analytics at h0
      rw [hc] at h0
      simp at h0
    · intro hex
      have hf := hchar.mpr hex
      unfold try_send_daily_analytics
      rw [hf]
      simp

/-- Single-step preservation: once `first_install_date` is truthy, every
operation keeps it truthy and never decreases any of the three counters. -/
theorem applyOp_preserves (a : AnalyticsRecord) (op : Op)
    (h : truthyStr a.first_install_date = true) :
    truthyStr (applyOp a op).first_install_date = true ∧
    a.total_uses.getD 0 ≤ (applyOp a op).total_uses.getD 0 ∧
    a.quick_action_usage_count.getD 0 ≤ (applyOp a op).quick_action_usage_count.getD 0 ∧
    a.shortcut_usage_count.getD 0 ≤ (applyOp a op).shortcut_usage_count.getD 0 := by
  cases op with
  | init now p d r => simp [applyOp, init_analytics, h]
  | record_usage now =>
    refine ⟨?_, ?_, ?_, ?_⟩ <;>
      simp [applyOp, track_usage, cleanup_old_daily_data, h]
  | record_signup_click now m =>
    simp only [applyOp]
    unfold track_signup_click
    split <;> simp [h]
  | record_auth_button_click now k =>
    simp only [applyOp]
    unfold track_auth_button_click
    split <;> simp [h]
  | record_login_detected now =>
    simp only [applyOp]
    unfold track_login_detected
    split <;> simp [h]
  | record_onboarding_completed =>
    simp only [applyOp]
    unfold track_onboarding_completed
    split <;> simp [h]
  | set_tutorial_status s =>
    simp only [applyOp]
    unfold track_tutorial_status
    split <;> simp [h]
  | set_tutorial_step c t => simp [applyOp, track_tutorial_step, h]
  | increment_quick_action_usage => simp [applyOp, track_quick_action_used, h]
  | increment_shortcut_usage => simp [applyOp, track_shortcut_used, h]
  | flush now e o =>
    simp only [applyOp]
    unfold send_analytics_background
    split
    · exact ⟨h, le_refl _, le_refl _, le_refl _⟩
    · cases o with
      | http status =>
        by_cases hs : status = 200 <;> simp [hs, h]
      | netError => simp [h]
      | timeoutError => simp [h]
      | serializeError => simp [h]

/-- C1 counterexample: from the empty record, `record_usage` then
`initialize` sends `total_uses` from 1 back to 0 — the claim fails for the
sequence `[record_usage, initialize]`, because an uninitialized record's
counters are reset by `initialize`. -/
theorem claim_C1_counterexample :
    (runOps {} [Op.record_usage ⟨2026, 10, 12, 9, 0, 0⟩]).total_uses.getD 0 = 1 ∧
    (runOps {} [Op.record_usage ⟨2026, 10, 12, 9, 0, 0⟩,
        Op.init ⟨2026, 10, 12, 9, 5, 0⟩ "linux" {} false]).total_uses.getD 0 = 0 ∧
    ¬ ((runOps {} [Op.record_usage ⟨2026, 10, 12, 9, 0, 0⟩]).total_uses.getD 0 ≤
        (runOps {} [Op.record_usage ⟨2026, 10, 12, 9, 0, 0⟩,
          Op.init ⟨2026, 10, 12, 9, 5, 0⟩ "linux" {} false]).total_uses.getD 0) :=
  ⟨by decide, by decide, by decide⟩

/-- C1 (amended): over any sequence of ledger operations applied to a
record whose `first_install_date` is set (as it is after `initialize` has
ever run), `total_uses`, `quick_action_usage_count` and
`shortcut_usage_count` never decrease.  Without that proviso `initialize`
resets the counters of an uninitialized record to zero. -/
theorem claim_C1_counters_monotone (ops : List Op) (a : AnalyticsRecord)
    (h : truthyStr a.first_install_date = true) :
    a.total_uses.getD 0 ≤ (runOps a ops).total_uses.getD 0 ∧
    a.quick_action_usage_count.getD 0 ≤ (runOps a ops).quick_action_usage_count.getD 0 ∧
    a.shortcut_usage_count.getD 0 ≤ (runOps a ops).shortcut_usage_count.getD 0 := by
  induction ops generalizing a with
  | nil => exact ⟨le_refl _, le_refl _, le_refl _⟩
  | cons op rest ih =>
    obtain ⟨h1, h2, h3, h4⟩ := applyOp_preserves a op h
    obtain ⟨g1, g2, g3⟩ := ih (applyOp a op) h1
    have hr : runOps a (op :: rest) = runOps (applyOp a op) rest := rfl
    rw [hr]
    exact ⟨le_trans h2 g1, le_trans h3 g2, le_trans h4 g3⟩

/-- C1 witness: a concrete initialized record and operation sequence on
which the monotonicity theorem applies. -/
theorem claim_C1_witness :
    truthyStr (({ first_install_date := some "2026-01-01T00:00:00", total_uses := some 5 }
      : AnalyticsRecord).first_install_date) = true ∧
    (({ first_install_date := some "2026-01-01T00:00:00", total_uses := some 5 }
      : AnalyticsRecord).total_uses.getD 0 ≤
      (runOps { first_install_date := some "2026-01-01T00:00:00", total_uses := some 5 }
        [Op.increment_quick_action_usage, Op.record_usage ⟨2026, 10, 12, 9, 0, 0⟩,
         Op.flush ⟨2026, 10, 12, 9, 0, 0⟩ none .netError]).total_uses.getD 0) :=
  ⟨by decide,
    (claim_C1_counters_monotone
      [Op.increment_quick_action_usage, Op.record_usage ⟨2026, 10, 12, 9, 0, 0⟩,
       Op.flush ⟨2026, 10, 12, 9, 0, 0⟩ none .netError]
      { first_install_date := some "2026-01-01T00:00:00", total_uses := some 5 }
      (by decide)).1⟩

/-- C3: `get_retention_metrics()` is a pure read (its type takes a record
and returns only a result — the source never calls `save_analytics_data`).
With no truthy install date it returns the empty dict.  Otherwise
`days_since_install` is the floor of the elapsed time in days (pinned down
by the two bounds), `active_days` is the number of distinct `daily_usage`
keys, and `retention_rate` is `100 * active_days / max(days_since_install, 1)`
rounded half-even to two decimals when `days_since_install > 0`, else 0. -/
theorem claim_C3_retention_metrics (now : DateTime) (a : AnalyticsRecord) :
    (truthyStr a.first_install_date = false → get_retention_metrics now a = .empty) ∧
    (∀ s fi, a.first_install_date = some s → fromisoformat s = some fi →
      ((a.daily_usage.getD []).map Prod.fst).Nodup →
      ∃ dsi : Int,
        86400 * dsi ≤ now.toEpochSec - fi.toEpochSec ∧
        now.toEpochSec - fi.toEpochSec < 86400 * (dsi + 1) ∧
        get_retention_metrics now a = .metrics
          { days_since_install := dsi
            active_days := (((a.daily_usage.getD []).map Prod.fst).dedup).length
            total_uses := a.total_uses.getD 0
            retention_rate :=
              ((if 0 < dsi then
                  roundHalfEvenFrac
                    (100 * (100 *
                      (((((a.daily_usage.getD []).map Prod.fst).dedup).length : Int))))
                    (max dsi 1)
                else 0 : Int) : ℚ) / 100
            last_used := a.last_used_date
            has_logged_in := a.has_logged_in.getD false
            signup_method := a.signup_method }) := by
  constructor
  · intro h
    cases hfi : a.first_install_date with
    | none => simp [get_retention_metrics, hfi]
    | some s =>
      have hse : s = "" := by
        rw [hfi] at h
        simpa [truthyStr] using h
      simp [get_retention_metrics, hfi, hse]
  · intro s fi hs hp hnodup
    have hne : s ≠ "" := by
      intro he
      rw [he] at hp
      rw [show fromisoformat "" = none from rfl] at hp
      exact Option.noConfusion hp
    refine ⟨Int.fdiv (now.toEpochSec - fi.toEpochSec) 86400, ?_, ?_, ?_⟩
    · have hfd := Int.fdiv_add_fmod (now.toEpochSec - fi.toEpochSec) 86400
      have hnn := Int.fmod_nonneg' (now.toEpochSec - fi.toEpochSec)
        (by norm_num : (0 : Int) < 86400)
      omega
    · have hfd := Int.fdiv_add_fmod (now.toEpochSec - fi.toEpochSec) 86400
      have hlt := Int.fmod_lt_of_pos (now.toEpochSec - fi.toEpochSec)
        (by norm_num : (0 : Int) < 86400)
      omega
    · rw [List.dedup_eq_self.mpr hnodup, List.length_map]
      simp only [get_retention_metrics, hs, if_neg hne, hp]

/-- C3 witness: with `first_install_date` ten days before `now` and three
distinct `daily_usage` keys, the metrics are `days_since_install = 10`,
`active_days = 3`, `retention_rate = 30`. -/
theorem claim_C3_witness :
    ({ first_install_date := some "2026-10-02T00:00:00",
       daily_usage := some [("2026-10-05", 2), ("2026-10-06", 1), ("2026-10-07", 4)],
       total_uses := some 7, last_used_date := some "2026-10-07",
       has_logged_in := some true, signup_method := some "organic" }
      : AnalyticsRecord).first_install_date = some "2026-10-02T00:00:00" ∧
    fromisoformat "2026-10-02T00:00:00" = some ⟨2026, 10, 2, 0, 0, 0⟩ ∧
    get_retention_metrics ⟨2026, 10, 12, 0, 0, 0⟩
      { first_install_date := some "2026-10-02T00:00:00",
        daily_usage := some [("2026-10-05", 2), ("2026-10-06", 1), ("2026-10-07", 4)],
        total_uses := some 7, last_used_date := some "2026-10-07",
        has_logged_in := some true, signup_method := some "organic" } =
      .metrics
        { days_since_install := 10, active_days := 3, total_uses := 7,
          retention_rate := 30, last_used := some "2026-10-07",
          has_logged_in := true, signup_method := some "organic" } := by
  obtain ⟨dsi, hb1, hb2, heq⟩ :=
    (claim_C3_retention_metrics ⟨2026, 10, 12, 0, 0, 0⟩
      { first_install_date := some "2026-10-02T00:00:00",
        daily_usage := some [("2026-10-05", 2), ("2026-10-06", 1), ("2026-10-07", 4)],
        total_uses := some 7, last_used_date := some "2026-10-07",
        has_logged_in := some true, signup_method := some "organic" }).2
      "2026-10-02T00:00:00" ⟨2026, 10, 2, 0, 0, 0⟩ rfl (by decide) (by decide)
  have hde : (⟨2026, 10, 12, 0, 0, 0⟩ : DateTime).toEpochSec -
      (⟨2026, 10, 2, 0, 0, 0⟩ : DateTime).toEpochSec = 864000 := by decide
  rw [hde] at hb1 hb2
  have hdsi : dsi = 10 := by omega
  subst hdsi
  refine ⟨rfl, by decide, ?_⟩
  rw [heq]
  have hcast : ∀ z : Int, z = 3000 → (z : ℚ) / 100 = 30 := by
    intro z hz
    subst hz
    norm_num
  simp only [RetentionResult.metrics.injEq, RetentionMetrics.mk.injEq]
  and_intros <;>
    first
      | trivial
      | (exact hcast _ (by decide))

/-- C2: `record_usage()` on date D increments `total_uses` by one,
increments the `daily_usage` count under key D (creating it at 1 if
absent), sets `last_used_date` to D, and prunes `daily_usage` so that the
key of every valid date before D − 90 days is absent while the key of
every valid date on or after that boundary (other than D itself) keeps its
original lookup.  The hypotheses state that `now` is a real calendar date
and that the 90-days-earlier cutoff is a valid date strictly before it —
true of every actual clock reading. -/
theorem claim_C2_record_usage_pruning (now : DateTime) (a : AnalyticsRecord)
    (hv : ValidDate now.date = true)
    (hvc : ValidDate (dateSubDays now.date 90) = true)
    (hb : Date.isBefore (dateSubDays now.date 90) now.date = true) :
    (track_usage now a).total_uses.getD 0 = a.total_uses.getD 0 + 1 ∧
    (track_usage now a).last_used_date = some now.date.fmt ∧
    dictGet? ((track_usage now a).daily_usage.getD []) now.date.fmt =
      some (dictGetD (a.daily_usage.getD []) now.date.fmt 0 + 1) ∧
    (∀ k : Date, ValidDate k = true →
      Date.isBefore k (dateSubDays now.date 90) = true →
      dictGet? ((track_usage now a).daily_usage.getD []) k.fmt = none) ∧
    (∀ k : Date, ValidDate k = true →
      Date.isBefore k (dateSubDays now.date 90) = false →
      k.fmt ≠ now.date.fmt →
      dictGet? ((track_usage now a).daily_usage.getD []) k.fmt =
        dictGet? (a.daily_usage.getD []) k.fmt) := by
  have hdu : (track_usage now a).daily_usage =
      some ((dictSet (a.daily_usage.getD []) now.date.fmt
          (dictGetD (a.daily_usage.getD []) now.date.fmt 0 + 1)).filter
        (fun kv => strLe (dateSubDays now.date 90).fmt kv.1)) := rfl
  refine ⟨rfl, rfl, ?_, ?_, ?_⟩
  · have hkeep : strLe (dateSubDays now.date 90).fmt now.date.fmt = true :=
      strLe_fmt_of_not_isBefore (dateSubDays now.date 90) now.date hvc hv
        (Date.isBefore_asymm hb)
    rw [hdu, Option.getD_some, dictGet?_filter_pos _ _ _ hkeep,
      dictGet?_dictSet_self]
  · intro k hk hkb
    have habs : strLe (dateSubDays now.date 90).fmt k.fmt = false :=
      strLe_fmt_of_isBefore (dateSubDays now.date 90) k hvc hk hkb
    rw [hdu, Option.getD_some]
    exact dictGet?_filter_neg _ _ _ habs
  · intro k hk hnb hne
    have hkeep : strLe (dateSubDays now.date 90).fmt k.fmt = true :=
      strLe_fmt_of_not_isBefore (dateSubDays now.date 90) k hvc hk hnb
    rw [hdu, Option.getD_some, dictGet?_filter_pos _ _ _ hkeep,
      dictGet?_dictSet_ne _ _ _ _ (Ne.symm hne)]

/-- C2 witness: on 2026-10-12 the cutoff is 2026-07-14; tracking a usage on
a record with keys 2026-07-01 (dropped), 2026-07-14 (kept with its count)
and 2026-10-10 (kept) bumps `total_uses` and creates today's key. -/
theorem claim_C2_witness :
    ValidDate (⟨2026, 10, 12, 9, 0, 0⟩ : DateTime).date = true ∧
    ValidDate (dateSubDays (⟨2026, 10, 12, 9, 0, 0⟩ : DateTime).date 90) = true ∧
    Date.isBefore (dateSubDays (⟨2026, 10, 12, 9, 0, 0⟩ : DateTime).date 90)
      (⟨2026, 10, 12, 9, 0, 0⟩ : DateTime).date = true ∧
    dateSubDays (⟨2026, 10, 12, 9, 0, 0⟩ : DateTime).date 90 = ⟨2026, 7, 14⟩ ∧
    (track_usage ⟨2026, 10, 12, 9, 0, 0⟩
        { total_uses := some 5, daily_usage := some [("2026-07-01", 2), ("2026-07-14", 3), ("2026-10-10", 1)] }).total_uses.getD 0 =
      ({ total_uses := some 5, daily_usage := some [("2026-07-01", 2), ("2026-07-14", 3), ("2026-10-10", 1)] } : AnalyticsRecord).total_uses.getD 0 + 1 ∧
    dictGet? ((track_usage ⟨2026, 10, 12, 9, 0, 0⟩
        { total_uses := some 5, daily_usage := some [("2026-07-01", 2), ("2026-07-14", 3), ("2026-10-10", 1)] }).daily_usage.getD [])
      (Date.mk 2026 7 1).fmt = none ∧
    dictGet? ((track_usage ⟨2026, 10, 12, 9, 0, 0⟩
        { total_uses := some 5, daily_usage := some [("2026-07-01", 2), ("2026-07-14", 3), ("2026-10-10", 1)] }).daily_usage.getD [])
      (Date.mk 2026 7 14).fmt =
      dictGet? (({ total_uses := some 5, daily_usage := some [("2026-07-01", 2), ("2026-07-14", 3), ("2026-10-10", 1)] } : AnalyticsRecord).daily_usage.getD [])
        (Date.mk 2026 7 14).fmt ∧
    dictGet? ((track_usage ⟨2026, 10, 12, 9, 0, 0⟩
        { total_uses := some 5, daily_usage := some [("2026-07-01", 2), ("2026-07-14", 3), ("2026-10-10", 1)] }).daily_usage.getD [])
      (⟨2026, 10, 12, 9, 0, 0⟩ : DateTime).date.fmt =
      some (dictGetD (({ total_uses := some 5, daily_usage := some [("2026-07-01", 2), ("2026-07-14", 3), ("2026-10-10", 1)] } : AnalyticsRecord).daily_usage.getD [])
        (⟨2026, 10, 12, 9, 0, 0⟩ : DateTime).date.fmt 0 + 1) := by
  have h := claim_C2_record_usage_pruning ⟨2026, 10, 12, 9, 0, 0⟩
    { total_uses := some 5, daily_usage := some [("2026-07-01", 2), ("2026-07-14", 3), ("2026-10-10", 1)] }
    (by decide) (by decide) (by decide)
  exact ⟨by decide, by decide, by decide, by decide, h.1,
    h.2.2.2.1 ⟨2026, 7, 1⟩ (by decide) (by decide),
    h.2.2.2.2 ⟨2026, 7, 14⟩ (by decide) (by decide) (by decide),
    h.2.2.1⟩

/-- C4 witness: with `last_analytics_sent` stamped yesterday
(2026-10-11 seen on 2026-10-12), exactly one upload attempt is
triggered. -/
theorem claim_C4_witness :
    try_send_daily_analytics ⟨2026, 10, 12, 9, 0, 0⟩
      { last_analytics_sent := some "2026-10-11T08:00:00" } = 1 := by
  have h := claim_C4_flush_gating ⟨2026, 10, 12, 9, 0, 0⟩
    { last_analytics_sent := some "2026-10-11T08:00:00" }
  rcases h.1 with h0 | h1
  · exfalso
    obtain ⟨s, dt, hs, hne, hp, hd⟩ := h.2.mp h0
    obtain rfl : s = "2026-10-11T08:00:00" := (Option.some.inj hs).symm
    rw [show fromisoformat "2026-10-11T08:00:00" = some ⟨2026, 10, 11, 8, 0, 0⟩
      from by decide] at hp
    obtain rfl := Option.some.inj hp
    exact absurd hd (by decide)
  · exact h1
